import Mathlib

set_option autoImplicit false

/-!
Verification of the check/result/fix protocol and orchestration engine of
`openclaw-doctor` (`src/openclaw_doctor`), as a shallow embedding in Lean.

External effects (subprocess invocations, filesystem reads, network calls,
environment variables) are modelled by per-probe environment structures whose
fields record the observations the Python code makes; the pure control flow of
each probe's `run`/`fix` and of the orchestrator (`main.py`) is translated
directly from the source.
-/

/-- The value of `sys.platform` (the three platforms the code distinguishes). -/
inductive Platform where
  | darwin
  | win32
  | linux
deriving DecidableEq

/-- Status of a health check (`checks/base.py`, class `CheckStatus`). -/
inductive CheckStatus where
  | PASS
  | WARN
  | FAIL
  | SKIP
deriving DecidableEq

/-- The `.value` of a `CheckStatus` member (the string of the Python enum). -/
def CheckStatus.value : CheckStatus → String
  | .PASS => "pass"
  | .WARN => "warn"
  | .FAIL => "fail"
  | .SKIP => "skip"

/-- Result of a health check (`checks/base.py`, dataclass `CheckResult`).
The dataclass performs no validation; the optional fields carry the
dataclass defaults (`details=None`, `can_auto_fix=False`,
`fix_suggestions=[]`). -/
structure CheckResult where
  name : String
  status : CheckStatus
  message : String
  details : Option String := none
  can_auto_fix : Bool := false
  fix_suggestions : List String := []
deriving DecidableEq

/-- `CheckResult.passed`: the result is passing (`PASS` or `WARN`). -/
def CheckResult.passed (r : CheckResult) : Bool :=
  r.status == CheckStatus.PASS || r.status == CheckStatus.WARN

/-- `CheckResult.is_warning`: the result is a warning. -/
def CheckResult.is_warning (r : CheckResult) : Bool :=
  r.status == CheckStatus.WARN

/-- A JSON-serializable field value, for `CheckResult.to_dict`. -/
inductive JsonVal where
  | str (s : String)
  | nullVal
  | boolVal (b : Bool)
  | strList (l : List String)
deriving DecidableEq

/-- `CheckResult.to_dict`: the ordered-key mapping for JSON output. -/
def CheckResult.to_dict (r : CheckResult) : List (String × JsonVal) :=
  [("name", JsonVal.str r.name),
   ("status", JsonVal.str r.status.value),
   ("message", JsonVal.str r.message),
   ("details", match r.details with
               | none => JsonVal.nullVal
               | some d => JsonVal.str d),
   ("can_auto_fix", JsonVal.boolVal r.can_auto_fix),
   ("fix_suggestions", JsonVal.strList r.fix_suggestions)]

/-- Python truthiness of an optional string (`if not x` on a `str | None`
field): `None` and the empty string are falsy. -/
def pyTruthyStr : Option String → Bool
  | none => false
  | some s => !s.isEmpty

/-- Python `x or y` on an optional integer left operand (`None` and `0` are
falsy), as used in `psutil.cpu_count(...) or ...`. -/
def pyOrNat (x : Option Nat) (y : Nat) : Nat :=
  match x with
  | some n => if n == 0 then y else n
  | none => y

/-- Python `str.lower()` on one character, restricted to ASCII (every
registry name and alias in the source is ASCII). -/
def pyLowerChar (c : Char) : Char :=
  if 65 ≤ c.toNat ∧ c.toNat ≤ 90 then Char.ofNat (c.toNat + 32) else c

/-- Python `str.lower()`, restricted to ASCII. -/
def pyLower (s : String) : String :=
  String.mk (s.data.map pyLowerChar)

/-- Worker for `pyReplace` over character lists: `skip` counts characters of
an already-replaced occurrence still to be consumed. Scans left to right,
replacing non-overlapping occurrences, as Python `str.replace` does (the
never-used empty pattern excepted). -/
def replaceAux (pat rep : List Char) : List Char → Nat → List Char
  | [], _ => []
  | _ :: rest, skip + 1 => replaceAux pat rep rest skip
  | c :: rest, 0 =>
    if pat.isPrefixOf (c :: rest) then
      rep ++ replaceAux pat rep rest (pat.length - 1)
    else
      c :: replaceAux pat rep rest 0

/-- Python `str.replace(pat, rep)` (all occurrences, left to right,
non-overlapping), for the nonempty patterns the source uses. -/
def pyReplace (s pat rep : String) : String :=
  String.mk (replaceAux pat.data rep.data s.data 0)

/-- Decimal rendering of a nonnegative rational with one digit after the
point, standing in for Python f-string formatting with .1f (the rounding
mode differs; no claim depends on the rendered digits). -/
def fmt1 (q : ℚ) : String :=
  let n : Int := (q * 10).floor
  toString (n / 10) ++ "." ++ toString (n % 10)

/-- Integer rendering of a rational, standing in for Python f-string
formatting with .0f. -/
def fmt0 (q : ℚ) : String :=
  toString q.floor

/-- Render a three-part version tuple as dot-separated numbers
(Python: a join of `str(v)` over the tuple with separator dot). -/
def versionString (v : Nat × Nat × Nat) : String :=
  toString v.1 ++ "." ++ toString v.2.1 ++ "." ++ toString v.2.2

/-- Python tuple comparison `a < b` on three-part version tuples
(lexicographic). -/
def versionLt (a b : Nat × Nat × Nat) : Bool :=
  a.1 < b.1 || (a.1 == b.1 && (a.2.1 < b.2.1 || (a.2.1 == b.2.1 && a.2.2 < b.2.2)))

/-! ## Node.js probe (`checks/nodejs.py`, class `NodeJSCheck`) -/

/-- External observations of the Node.js probe. -/
structure NodeEnv where
  /-- Result of `shutil.which("node")`. -/
  node_path : Option String
  /-- Version parsed from `node --version`: `none` when the subprocess exits
  nonzero, times out, raises `FileNotFoundError`, or its output does not
  match the version regex (lines 28-46). -/
  node_version : Option (Nat × Nat × Nat)
  /-- `sys.platform`. -/
  platform : Platform

/-- `NodeJSCheck.name` (class attribute). -/
def NodeJSCheck.name : String := "Node.js"

/-- `NodeJSCheck.description` (class attribute). -/
def NodeJSCheck.description : String := "Verifies Node.js >= 18.x is installed"

/-- `NodeJSCheck.min_version` (class attribute). -/
def NodeJSCheck.min_version : Nat × Nat × Nat := (18, 0, 0)

/-- `NodeJSCheck._get_node_info`: no path means no version either. -/
def NodeJSCheck.get_node_info (env : NodeEnv) : Option String × Option (Nat × Nat × Nat) :=
  match env.node_path with
  | none => (none, none)
  | some p => (some p, env.node_version)

/-- `NodeJSCheck._get_install_suggestions` (lines 90-109). -/
def NodeJSCheck.get_install_suggestions (platform : Platform) : List String :=
  match platform with
  | .darwin =>
      ["Install via Homebrew: brew install node",
       "Or use nvm: curl -o- https://raw.githubusercontent.com/nvm-sh/nvm/v0.39.0/install.sh | bash",
       "Then: nvm install 20"]
  | .win32 =>
      ["Download from: https://nodejs.org/en/download/",
       "Or use winget: winget install OpenJS.NodeJS.LTS",
       "Or use nvm-windows: https://github.com/coreybutler/nvm-windows"]
  | .linux =>
      ["Install via nvm: curl -o- https://raw.githubusercontent.com/nvm-sh/nvm/v0.39.0/install.sh | bash",
       "Then: nvm install 20",
       "Or via package manager (Ubuntu): sudo apt install nodejs npm"]

/-- `NodeJSCheck.run` (lines 48-88). -/
def NodeJSCheck.run (env : NodeEnv) : CheckResult :=
  let info := NodeJSCheck.get_node_info env
  if !pyTruthyStr info.1 then
    { name := NodeJSCheck.name,
      status := CheckStatus.FAIL,
      message := "Node.js is not installed",
      details := some "OpenClaw requires Node.js >= 18.x",
      can_auto_fix := true,
      fix_suggestions := NodeJSCheck.get_install_suggestions env.platform }
  else
    match info.2 with
    | none =>
      { name := NodeJSCheck.name,
        status := CheckStatus.WARN,
        message := "Node.js found but version could not be determined",
        details := some ("Path: " ++ info.1.getD ""),
        fix_suggestions := ["Try running 'node --version' manually"] }
    | some v =>
      if versionLt v NodeJSCheck.min_version then
        { name := NodeJSCheck.name,
          status := CheckStatus.FAIL,
          message := "Node.js v" ++ versionString v ++ " is below minimum v"
                       ++ versionString NodeJSCheck.min_version,
          can_auto_fix := true,
          fix_suggestions := NodeJSCheck.get_install_suggestions env.platform }
      else
        { name := NodeJSCheck.name,
          status := CheckStatus.PASS,
          message := "Node.js v" ++ versionString v ++ " installed",
          details := some ("Path: " ++ info.1.getD "") }

/-- `NodeJSCheck.fix` (lines 111-122): prints installation suggestions and
unconditionally returns `False` (the source comments that Node.js cannot be
auto-installed). -/
def NodeJSCheck.fix (_ : NodeEnv) : Bool :=
  false

/-! ## OpenClaw probe (`checks/openclaw.py`, class `OpenClawCheck`) -/

/-- External observations of the OpenClaw probe. -/
structure OpenClawEnv where
  /-- First hit of the `shutil.which` lookups over openclaw/oc/claw
  (lines 26-35). -/
  openclaw_path : Option String
  /-- Raw stdout of `openclaw --version` when it exits 0; `none` on nonzero
  exit, timeout or `FileNotFoundError` (lines 37-54). -/
  version_stdout : Option String
  /-- `_get_home_directory()`: first existing candidate directory. -/
  home_dir : Option String
  /-- `sys.platform`. -/
  platform : Platform
  /-- Whether the external install script run by `fix` exits 0
  (lines 129-150); `false` also covers its timeout and error paths. -/
  fix_install_ok : Bool

/-- `OpenClawCheck.name` (class attribute). -/
def OpenClawCheck.name : String := "OpenClaw"

/-- `OpenClawCheck.description` (class attribute). -/
def OpenClawCheck.description : String := "Checks OpenClaw CLI installation"

/-- The version-string cleanup of `_get_openclaw_info` (lines 45-51). -/
def OpenClawCheck.clean_version (raw : String) : String :=
  let v := raw.trim
  let v := if v.startsWith "openclaw" then ((pyReplace v "openclaw" "").trim) else v
  let v := if v.startsWith "v" then v.drop 1 else v
  v

/-- `OpenClawCheck._get_openclaw_info` (lines 23-54). -/
def OpenClawCheck.get_openclaw_info (env : OpenClawEnv) : Option String × Option String :=
  match env.openclaw_path with
  | none => (none, none)
  | some p =>
    match env.version_stdout with
    | none => (some p, none)
    | some raw => (some p, some (OpenClawCheck.clean_version raw))

/-- `OpenClawCheck.run` (lines 73-109). -/
def OpenClawCheck.run (env : OpenClawEnv) : CheckResult :=
  let info := OpenClawCheck.get_openclaw_info env
  if !pyTruthyStr info.1 then
    { name := OpenClawCheck.name,
      status := CheckStatus.FAIL,
      message := "OpenClaw CLI is not installed",
      can_auto_fix := true,
      fix_suggestions :=
        ["Run the OpenClaw installer:",
         "curl -fsSL https://openclawd.ai/install.sh | bash",
         "Or visit: https://github.com/openclaw/openclaw"] }
  else if !pyTruthyStr info.2 then
    { name := OpenClawCheck.name,
      status := CheckStatus.WARN,
      message := "OpenClaw found but version could not be determined",
      details := some ("Path: " ++ info.1.getD ""),
      fix_suggestions := ["Try running 'openclaw --version' manually"] }
  else
    let details := "Path: " ++ info.1.getD ""
    let details := match env.home_dir with
                   | some h => details ++ "\nHome: " ++ h
                   | none => details
    { name := OpenClawCheck.name,
      status := CheckStatus.PASS,
      message := "OpenClaw v" ++ info.2.getD "" ++ " installed",
      details := some details }

/-- `OpenClawCheck.fix` (lines 111-162): on Windows it only prints
instructions (returns `False`); elsewhere it runs the install script and
returns whether it exited 0 (every failure path returns `False`). -/
def OpenClawCheck.fix (env : OpenClawEnv) : Bool :=
  match env.platform with
  | .win32 => false
  | _ => env.fix_install_ok

/-! ## Docker probe (`checks/docker.py`, class `DockerCheck`) -/

/-- External observations of the Docker probe. -/
structure DockerEnv where
  /-- Result of `shutil.which("docker")`. -/
  docker_path : Option String
  /-- Version parsed from `docker --version` (lines 28-41); `none` on nonzero
  exit, timeout or `FileNotFoundError`. -/
  version_output : Option String
  /-- Whether `docker info` exits 0 (lines 44-54). -/
  info_ok : Bool
  /-- `_check_compose()`: the Compose version string, if either
  `docker compose version` or `docker-compose --version` succeeds. -/
  compose_version : Option String
  /-- `sys.platform`. -/
  platform : Platform
  /-- Whether the platform-specific start attempt in `fix` succeeds
  (macOS `open -a Docker`, Linux `systemctl start docker`). -/
  fix_attempt_ok : Bool

/-- `DockerCheck.name` (class attribute). -/
def DockerCheck.name : String := "Docker"

/-- `DockerCheck.description` (class attribute). -/
def DockerCheck.description : String := "Validates Docker & Compose setup (optional)"

/-- `DockerCheck._check_docker` (lines 21-56): a missing binary yields
`(None, False)`. -/
def DockerCheck.check_docker (env : DockerEnv) : Option String × Bool :=
  match env.docker_path with
  | none => (none, false)
  | some _ => (env.version_output, env.info_ok)

/-- `DockerCheck._get_install_suggestions` (lines 131-148). -/
def DockerCheck.get_install_suggestions (platform : Platform) : List String :=
  match platform with
  | .darwin =>
      ["Install Docker Desktop: https://www.docker.com/products/docker-desktop/",
       "Or via Homebrew: brew install --cask docker"]
  | .win32 =>
      ["Install Docker Desktop: https://www.docker.com/products/docker-desktop/",
       "Or via winget: winget install Docker.DockerDesktop"]
  | .linux =>
      ["Install Docker: https://docs.docker.com/engine/install/",
       "For Ubuntu: sudo apt install docker.io docker-compose-v2",
       "Then: sudo systemctl enable --now docker"]

/-- `DockerCheck.run` (lines 94-129). -/
def DockerCheck.run (env : DockerEnv) : CheckResult :=
  let dockerInfo := DockerCheck.check_docker env
  let docker_version := dockerInfo.1
  let docker_running := dockerInfo.2
  let compose_version := env.compose_version
  if !pyTruthyStr docker_version then
    { name := DockerCheck.name,
      status := CheckStatus.WARN,
      message := "Docker is not installed (optional for desktop use)",
      details := some "Docker is only required for server deployments",
      fix_suggestions := DockerCheck.get_install_suggestions env.platform }
  else if !docker_running then
    { name := DockerCheck.name,
      status := CheckStatus.WARN,
      message := "Docker " ++ docker_version.getD "" ++ " installed but not running",
      can_auto_fix := true,
      fix_suggestions := ["Start Docker Desktop or the Docker daemon"] }
  else
    let details := "Docker " ++ docker_version.getD ""
    let details := if pyTruthyStr compose_version then
                     details ++ ", Compose " ++ compose_version.getD ""
                   else
                     details ++ " (Compose not found)"
    { name := DockerCheck.name,
      status := CheckStatus.PASS,
      message := "Docker " ++ docker_version.getD "" ++ " running",
      details := some details }

/-- `DockerCheck.fix` (lines 150-192): `False` when Docker is missing (only
suggestions are printed); when installed but not running, the result of the
platform-specific start attempt (Windows has no attempt); `False` when
already running. The values `fix` consults are what `run` stored on the
instance, so the same environment is read. -/
def DockerCheck.fix (env : DockerEnv) : Bool :=
  let dockerInfo := DockerCheck.check_docker env
  if !pyTruthyStr dockerInfo.1 then false
  else if !dockerInfo.2 then
    match env.platform with
    | .darwin => env.fix_attempt_ok
    | .linux => env.fix_attempt_ok
    | .win32 => false
  else false

/-! ## System probe (`checks/system.py`, class `SystemCheck`) -/

/-- External observations of the system-resources probe. -/
structure SystemEnv where
  /-- `psutil.virtual_memory().total`, in bytes. -/
  mem_total : Nat
  /-- `shutil.disk_usage(path).free`, in bytes. -/
  disk_free : Nat
  /-- `psutil.cpu_count(logical=False)`. -/
  cpu_physical : Option Nat
  /-- `psutil.cpu_count()`. -/
  cpu_logical : Option Nat
  /-- `sys.platform`. -/
  platform : Platform

/-- `SystemCheck.name` (class attribute). -/
def SystemCheck.name : String := "System"

/-- `SystemCheck.description` (class attribute). -/
def SystemCheck.description : String := "RAM (2GB+), Disk (20GB+), CPU"

/-- `SystemCheck.MIN_RAM_GB`. -/
def SystemCheck.MIN_RAM_GB : ℚ := 2

/-- `SystemCheck.RECOMMENDED_RAM_GB`. -/
def SystemCheck.RECOMMENDED_RAM_GB : ℚ := 4

/-- `SystemCheck.MIN_DISK_GB`. -/
def SystemCheck.MIN_DISK_GB : ℚ := 20

/-- `SystemCheck.MIN_CPU_CORES`. -/
def SystemCheck.MIN_CPU_CORES : Nat := 2

/-- `SystemCheck._get_suggestions` (lines 89-104), as a function of the
RAM and disk figures `run` stored on the instance. -/
def SystemCheck.get_suggestions (ram_gb disk_gb : ℚ) : List String :=
  (if ram_gb < SystemCheck.RECOMMENDED_RAM_GB then
     ["Consider upgrading to 4GB+ RAM for better performance"]
   else []) ++
  (if disk_gb < SystemCheck.MIN_DISK_GB then
     ["Free up disk space by:",
      "  - Removing unused applications",
      "  - Clearing temporary files",
      "  - Moving large files to external storage"]
   else [])

/-- `SystemCheck.run` (lines 30-87). Floats are modelled as rationals; the
byte counts are divided by 1024 cubed exactly as the source does. -/
def SystemCheck.run (env : SystemEnv) : CheckResult :=
  let ram_gb : ℚ := (env.mem_total : ℚ) / (1024 ^ 3)
  let disk_gb : ℚ := (env.disk_free : ℚ) / (1024 ^ 3)
  let cpu_cores : Nat := pyOrNat env.cpu_physical (pyOrNat env.cpu_logical 1)
  let issues : List String :=
    (if ram_gb < SystemCheck.MIN_RAM_GB then
       ["RAM: " ++ fmt1 ram_gb ++ "GB (minimum 2GB required)"]
     else []) ++
    (if disk_gb < SystemCheck.MIN_DISK_GB then
       ["Disk: " ++ fmt1 disk_gb ++ "GB free (minimum 20GB required)"]
     else [])
  let warnings : List String :=
    (if ¬ ram_gb < SystemCheck.MIN_RAM_GB ∧ ram_gb < SystemCheck.RECOMMENDED_RAM_GB then
       ["RAM: " ++ fmt1 ram_gb ++ "GB (recommended 4GB+)"]
     else []) ++
    (if cpu_cores < SystemCheck.MIN_CPU_CORES then
       ["CPU: " ++ toString cpu_cores ++ " cores (recommended 2+)"]
     else [])
  if !issues.isEmpty then
    { name := SystemCheck.name,
      status := CheckStatus.FAIL,
      message := "System does not meet minimum requirements",
      details := some (String.intercalate "\n" (issues ++ warnings)),
      fix_suggestions := SystemCheck.get_suggestions ram_gb disk_gb }
  else
    let summary := fmt1 ram_gb ++ "GB RAM, " ++ fmt0 disk_gb ++ "GB free, "
                     ++ toString cpu_cores ++ " cores"
    if !warnings.isEmpty then
      { name := SystemCheck.name,
        status := CheckStatus.WARN,
        message := "System meets minimum requirements (" ++ summary ++ ")",
        details := some (String.intercalate "\n" warnings),
        fix_suggestions := SystemCheck.get_suggestions ram_gb disk_gb }
    else
      { name := SystemCheck.name,
        status := CheckStatus.PASS,
        message := "System requirements met (" ++ summary ++ ")" }

/-- `SystemCheck.fix` (lines 106-117): prints suggestions only,
unconditionally returns `False`. -/
def SystemCheck.fix (_ : SystemEnv) : Bool :=
  false

/-! ## Config probe (`checks/config.py`, class `ConfigCheck`) -/

/-- A parsed YAML/JSON value, as far as the config probe inspects one:
the probe only tests Python truthiness and nested `api_key` lookups. -/
inductive PyVal where
  | vNone
  | vBool (b : Bool)
  | vStr (s : String)
  | vNum (n : Int)
  | vList (l : List PyVal)
  | vDict (d : List (String × PyVal))

/-- Python truthiness of a `PyVal`. -/
def PyVal.truthy : PyVal → Bool
  | .vNone => false
  | .vBool b => b
  | .vStr s => !s.isEmpty
  | .vNum n => n != 0
  | .vList l => !l.isEmpty
  | .vDict d => !d.isEmpty

/-- Outcome of `ConfigCheck._parse_config` on the found file. -/
inductive ParseOutcome where
  /-- `_parse_config` raised `ValueError` with this message (invalid JSON
  or YAML, lines 61-64). -/
  | parse_error (msg : String)
  /-- The parsed document: `none` models a YAML `null` / empty file,
  otherwise the top-level mapping as an ordered association list. -/
  | parsed (config : Option (List (String × PyVal)))

/-- External observations of the config probe. -/
structure ConfigEnv where
  /-- `_find_config()`: the first existing candidate path, if any. -/
  config_path : Option String
  /-- Outcome of parsing that file (meaningful only when a path was found). -/
  parse_outcome : ParseOutcome
  /-- Whether the directory/file creation in `fix` succeeds
  (lines 148-166); `false` covers the exception path. -/
  fix_create_ok : Bool

/-- `ConfigCheck.name` (class attribute). -/
def ConfigCheck.name : String := "Config"

/-- `ConfigCheck.description` (class attribute). -/
def ConfigCheck.description : String := "Validates OpenClaw configuration"

/-- `ConfigCheck.REQUIRED_FIELDS` (class attribute). -/
def ConfigCheck.REQUIRED_FIELDS : List String := ["provider"]

/-- `ConfigCheck._validate_config` (lines 66-72): a required field is
missing when absent or falsy. -/
def ConfigCheck.validate_config (config : List (String × PyVal)) : List String :=
  ConfigCheck.REQUIRED_FIELDS.filter (fun f =>
    match config.lookup f with
    | none => true
    | some v => !v.truthy)

/-- `ConfigCheck.run` (lines 74-134). The Python `if not self._config` is
truthiness of a `dict | None`: `None` and the empty mapping are falsy. -/
def ConfigCheck.run (env : ConfigEnv) : CheckResult :=
  match env.config_path with
  | none =>
    { name := ConfigCheck.name,
      status := CheckStatus.WARN,
      message := "No OpenClaw config file found",
      details := some "Config will be created during OpenClaw setup",
      can_auto_fix := true,
      fix_suggestions :=
        ["Run 'openclaw init' to create initial config",
         "Or create ~/.openclaw/config.yaml manually"] }
  | some path =>
    match env.parse_outcome with
    | .parse_error e =>
      { name := ConfigCheck.name,
        status := CheckStatus.FAIL,
        message := "Config file has syntax errors",
        details := some e,
        fix_suggestions :=
          ["Fix the syntax errors in: " ++ path,
           "Use a YAML/JSON validator to check the file"] }
    | .parsed config =>
      if (config.getD []).isEmpty then
        { name := ConfigCheck.name,
          status := CheckStatus.WARN,
          message := "Config file is empty",
          details := some ("Path: " ++ path),
          can_auto_fix := true,
          fix_suggestions := ["Add configuration to the file or run 'openclaw init'"] }
      else
        let missing := ConfigCheck.validate_config (config.getD [])
        if !missing.isEmpty then
          { name := ConfigCheck.name,
            status := CheckStatus.WARN,
            message := "Config missing fields: " ++ String.intercalate ", " missing,
            details := some ("Path: " ++ path),
            fix_suggestions :=
              ["Add the following to your config: " ++ String.intercalate ", " missing,
               "Run 'openclaw init' to reconfigure"] }
        else
          { name := ConfigCheck.name,
            status := CheckStatus.PASS,
            message := "Configuration valid",
            details := some ("Path: " ++ path) }

/-- `ConfigCheck.fix` (lines 136-175): with no config file found it creates
a default one and reports whether that succeeded; otherwise it only prints
suggestions and returns `False`. -/
def ConfigCheck.fix (env : ConfigEnv) : Bool :=
  match env.config_path with
  | none => env.fix_create_ok
  | some _ => false

/-! ## API keys probe (`checks/api_keys.py`, class `APIKeysCheck`) -/

/-- `APIKeysCheck.name` (class attribute). -/
def APIKeysCheck.name : String := "API Keys"

/-- `APIKeysCheck.description` (class attribute). -/
def APIKeysCheck.description : String := "Checks AI provider keys configured"

/-- `APIKeysCheck.ENV_KEYS` (class attribute). -/
def APIKeysCheck.ENV_KEYS : List String :=
  ["ANTHROPIC_API_KEY",
   "OPENAI_API_KEY",
   "GOOGLE_API_KEY",
   "GOOGLE_GENERATIVE_AI_API_KEY",
   "GROQ_API_KEY",
   "OPENROUTER_API_KEY"]

/-- `re.match` of the pattern in `KEY_PATTERNS` for the given key against a
value (`None` when the key has no pattern). The four anchored regexes are
hand-translated: a literal head, a character class, and a length bound. -/
def APIKeysCheck.key_pattern_matches (key_name : String) : Option (String → Bool) :=
  if key_name == "ANTHROPIC_API_KEY" then
    some (fun v =>
      v.startsWith "sk-ant-" && (v.drop 7).length ≥ 40 &&
        (v.drop 7).all (fun c => c.isAlphanum || c == '-' || c == '_'))
  else if key_name == "OPENAI_API_KEY" then
    some (fun v =>
      v.startsWith "sk-" && (v.drop 3).length ≥ 40 &&
        (v.drop 3).all (fun c => c.isAlphanum))
  else if key_name == "GOOGLE_API_KEY" then
    some (fun v =>
      v.startsWith "AIza" && (v.drop 4).length == 35 &&
        (v.drop 4).all (fun c => c.isAlphanum || c == '-' || c == '_'))
  else if key_name == "GROQ_API_KEY" then
    some (fun v =>
      v.startsWith "gsk_" && (v.drop 4).length ≥ 50 &&
        (v.drop 4).all (fun c => c.isAlphanum))
  else
    none

/-- `APIKeysCheck._check_env_keys` (lines 44-59): a set but malformed key
goes to the invalid list, any other set key (including keys with no
pattern) to the found list. An empty-string value is falsy and skipped. -/
def APIKeysCheck.check_env_keys (env_vars : List (String × String)) :
    List String × List String :=
  APIKeysCheck.ENV_KEYS.foldl
    (fun acc key_name =>
      match env_vars.lookup key_name with
      | none => acc
      | some value =>
        if value.isEmpty then acc
        else
          match APIKeysCheck.key_pattern_matches key_name with
          | some pat =>
            if pat value then (acc.1 ++ [key_name], acc.2)
            else (acc.1, acc.2 ++ [key_name])
          | none => (acc.1 ++ [key_name], acc.2))
    ([], [])

/-- One line of the `.env` parse loop in `_check_env_file` (lines 78-88). -/
def APIKeysCheck.env_file_line (found : List String) (line : String) : List String :=
  let l := line.trim
  if l.isEmpty || l.startsWith "#" then found
  else if l.contains '=' then
    let key := ((l.splitOn "=").headD "").trim
    if APIKeysCheck.ENV_KEYS.contains key then found ++ [key ++ " (in .env)"]
    else found
  else found

/-- `APIKeysCheck._check_env_file` (lines 61-94) over the existing candidate
`.env` files in candidate order, each given by its path and lines: the first
file whose parse finds keys wins; a file that raises is skipped like one
with no keys. -/
def APIKeysCheck.check_env_file :
    List (String × List String) → List String × Option String
  | [] => ([], none)
  | (path, lines) :: rest =>
    let found := lines.foldl APIKeysCheck.env_file_line []
    if !found.isEmpty then (found, some path)
    else APIKeysCheck.check_env_file rest

/-- Truthy top-level lookup, `config.get(key)` under `if`. -/
def APIKeysCheck.truthyGet (config : List (String × PyVal)) (key : String) : Bool :=
  match config.lookup key with
  | none => false
  | some v => v.truthy

/-- Truthy nested lookup `config.get(outer, \x7b\x7d).get("api_key")`. A
non-dict outer value raises `AttributeError` in Python, which the caller's
broad except turns into skipping the file; here it yields `false` (the
difference is invisible to every claim). -/
def APIKeysCheck.nestedTruthyGet (config : List (String × PyVal))
    (outer inner : String) : Bool :=
  match config.lookup outer with
  | some (.vDict d) =>
    (match d.lookup inner with
     | some v => v.truthy
     | none => false)
  | _ => false

/-- `APIKeysCheck._check_config_keys` (lines 96-127) over the existing
candidate config files in candidate order: `none` models a file whose read
or parse raised (skipped); a falsy (empty) document is skipped; the first
truthy document is inspected and its key list returned, even when empty. -/
def APIKeysCheck.check_config_keys :
    List (Option (List (String × PyVal))) → List String
  | [] => []
  | none :: rest => APIKeysCheck.check_config_keys rest
  | some config :: rest =>
    if config.isEmpty then APIKeysCheck.check_config_keys rest
    else
      (if APIKeysCheck.truthyGet config "api_key" then ["api_key (in config)"] else []) ++
      (if APIKeysCheck.nestedTruthyGet config "anthropic" "api_key" then ["anthropic.api_key"] else []) ++
      (if APIKeysCheck.nestedTruthyGet config "openai" "api_key" then ["openai.api_key"] else [])

/-- External observations of the API keys probe. -/
structure APIKeysEnv where
  /-- `os.environ`, restricted to the variables the probe reads. -/
  env_vars : List (String × String)
  /-- The existing candidate `.env` files, in candidate order, as
  path and lines. -/
  env_files : List (String × List String)
  /-- The existing candidate config files, in candidate order, as parse
  outcomes (`none`: the read or parse raised). -/
  config_docs : List (Option (List (String × PyVal)))

/-- `APIKeysCheck._mask_key_name` (lines 177-180): display name only.
Python `.title()` is modelled per space-separated word. -/
def APIKeysCheck.mask_key_name (key_name : String) : String :=
  let s := pyReplace (pyReplace key_name "_API_KEY" "") "_" " "
  String.intercalate " " ((s.splitOn " ").map (fun w => (pyLower w).capitalize))

/-- `APIKeysCheck.run` (lines 129-175). -/
def APIKeysCheck.run (env : APIKeysEnv) : CheckResult :=
  let envKeys := APIKeysCheck.check_env_keys env.env_vars
  let found_keys := envKeys.1
  let invalid_keys := envKeys.2
  let env_file_keys := (APIKeysCheck.check_env_file env.env_files).1
  let config_keys := APIKeysCheck.check_config_keys env.config_docs
  let all_keys := found_keys ++ env_file_keys ++ config_keys
  if !invalid_keys.isEmpty then
    { name := APIKeysCheck.name,
      status := CheckStatus.WARN,
      message := "Some API keys appear invalid: " ++ String.intercalate ", " invalid_keys,
      details := some "Keys may be malformed or using old format",
      fix_suggestions :=
        ["Verify your API keys are correct",
         "Get new keys from your AI provider's dashboard"] }
  else if all_keys.isEmpty then
    { name := APIKeysCheck.name,
      status := CheckStatus.WARN,
      message := "No AI provider API keys found",
      details := some "OpenClaw requires at least one AI provider API key",
      can_auto_fix := true,
      fix_suggestions :=
        ["Set environment variable: export ANTHROPIC_API_KEY=your_key",
         "Or create ~/.openclaw/.env file with your keys",
         "Or add to ~/.openclaw/config.yaml",
         "Get API keys from:",
         "  - Anthropic: https://console.anthropic.com/",
         "  - OpenAI: https://platform.openai.com/",
         "  - Google: https://aistudio.google.com/"] }
  else
    let masked := all_keys.map APIKeysCheck.mask_key_name
    { name := APIKeysCheck.name,
      status := CheckStatus.PASS,
      message := "API keys configured (" ++ toString all_keys.length ++ " found)",
      details := some ("Found: " ++ String.intercalate ", " masked) }

/-- `APIKeysCheck.fix` (lines 182-216): prints guidance only,
unconditionally returns `False`. -/
def APIKeysCheck.fix (_ : APIKeysEnv) : Bool :=
  false

/-! ## Network probe (`checks/network.py`, class `NetworkCheck`) -/

/-- Outcome of the HEAD request to one endpoint (lines 31-42). -/
inductive NetOutcome where
  /-- Any HTTP response, whatever the status code. -/
  | responded
  /-- `httpx.TimeoutException`. -/
  | timeout
  /-- `httpx.ConnectError`. -/
  | connect_error
  /-- Any other exception, recorded by its type name. -/
  | other_exc (type_name : String)

/-- External observations of the network probe: the outcome per endpoint
display name. -/
structure NetworkEnv where
  outcome : String → NetOutcome

/-- `NetworkCheck.name` (class attribute). -/
def NetworkCheck.name : String := "Network"

/-- `NetworkCheck.description` (class attribute). -/
def NetworkCheck.description : String := "Tests connectivity to AI providers"

/-- `NetworkCheck.ENDPOINTS` (class attribute), in iteration order. -/
def NetworkCheck.ENDPOINTS : List (String × String) :=
  [("Anthropic", "https://api.anthropic.com"),
   ("OpenAI", "https://api.openai.com"),
   ("Google AI", "https://generativelanguage.googleapis.com"),
   ("Groq", "https://api.groq.com")]

/-- `NetworkCheck._get_suggestions` (lines 69-76). -/
def NetworkCheck.get_suggestions : List String :=
  ["Check your internet connection",
   "If behind a proxy, configure HTTP_PROXY and HTTPS_PROXY",
   "Check if firewall is blocking outbound connections",
   "Try: curl https://api.anthropic.com to test manually"]

/-- `NetworkCheck.run` (lines 26-67). -/
def NetworkCheck.run (env : NetworkEnv) : CheckResult :=
  let lists := NetworkCheck.ENDPOINTS.foldl
    (fun (acc : List String × List String) p =>
      match env.outcome p.1 with
      | .responded => (acc.1 ++ [p.1], acc.2)
      | .timeout => (acc.1, acc.2 ++ [p.1 ++ " (timeout)"])
      | .connect_error => (acc.1, acc.2 ++ [p.1 ++ " (connection failed)"])
      | .other_exc t => (acc.1, acc.2 ++ [p.1 ++ " (" ++ t ++ ")"]))
    ([], [])
  let reachable := lists.1
  let unreachable := lists.2
  if reachable.isEmpty then
    { name := NetworkCheck.name,
      status := CheckStatus.FAIL,
      message := "Cannot reach any AI providers",
      details := some "All connection attempts failed",
      fix_suggestions := NetworkCheck.get_suggestions }
  else if !unreachable.isEmpty then
    { name := NetworkCheck.name,
      status := CheckStatus.WARN,
      message := "Some providers unreachable: " ++ String.intercalate ", " unreachable,
      details := some ("Reachable: " ++ String.intercalate ", " reachable),
      fix_suggestions := NetworkCheck.get_suggestions }
  else
    { name := NetworkCheck.name,
      status := CheckStatus.PASS,
      message := "Network connectivity OK",
      details := some ("Reachable: " ++ String.intercalate ", " reachable) }

/-- `NetworkCheck.fix` (lines 78-86): prints suggestions only,
unconditionally returns `False`. -/
def NetworkCheck.fix (_ : NetworkEnv) : Bool :=
  false

/-! ## Registry (`checks/__init__.py`) and the full environment -/

/-- The closed set of registered probe classes (the heterogeneous
`ALL_CHECKS` list as a tagged union). -/
inductive CheckKind where
  | nodejs
  | openclaw
  | docker
  | system
  | config
  | api_keys
  | network
deriving DecidableEq

/-- The class-level `name` attribute of each probe class. -/
def CheckKind.name : CheckKind → String
  | .nodejs => NodeJSCheck.name
  | .openclaw => OpenClawCheck.name
  | .docker => DockerCheck.name
  | .system => SystemCheck.name
  | .config => ConfigCheck.name
  | .api_keys => APIKeysCheck.name
  | .network => NetworkCheck.name

/-- The class-level `description` attribute of each probe class. -/
def CheckKind.description : CheckKind → String
  | .nodejs => NodeJSCheck.description
  | .openclaw => OpenClawCheck.description
  | .docker => DockerCheck.description
  | .system => SystemCheck.description
  | .config => ConfigCheck.description
  | .api_keys => APIKeysCheck.description
  | .network => NetworkCheck.description

/-- `ALL_CHECKS` (`checks/__init__.py` lines 13-21), in registry order. -/
def ALL_CHECKS : List CheckKind :=
  [CheckKind.nodejs, CheckKind.openclaw, CheckKind.docker, CheckKind.system,
   CheckKind.config, CheckKind.api_keys, CheckKind.network]

/-- The external world one orchestration pass observes: one component per
registered probe. -/
structure Env where
  node : NodeEnv
  openclaw : OpenClawEnv
  docker : DockerEnv
  system : SystemEnv
  config : ConfigEnv
  api_keys : APIKeysEnv
  network : NetworkEnv

/-- Dispatch `run` over the registry (instantiating a probe and calling its
`run` against the environment of its kind). -/
def CheckKind.run : CheckKind → Env → CheckResult
  | .nodejs, env => NodeJSCheck.run env.node
  | .openclaw, env => OpenClawCheck.run env.openclaw
  | .docker, env => DockerCheck.run env.docker
  | .system, env => SystemCheck.run env.system
  | .config, env => ConfigCheck.run env.config
  | .api_keys, env => APIKeysCheck.run env.api_keys
  | .network, env => NetworkCheck.run env.network

/-- Dispatch `fix` over the registry. -/
def CheckKind.fix : CheckKind → Env → Bool
  | .nodejs, env => NodeJSCheck.fix env.node
  | .openclaw, env => OpenClawCheck.fix env.openclaw
  | .docker, env => DockerCheck.fix env.docker
  | .system, env => SystemCheck.fix env.system
  | .config, env => ConfigCheck.fix env.config
  | .api_keys, env => APIKeysCheck.fix env.api_keys
  | .network, env => NetworkCheck.fix env.network

/-! ## Orchestrator (`main.py`) -/

/-- The probe loop of `run_all_checks` (main.py lines 84-91): the ordered
result list of one batch pass. -/
def allResults (env : Env) : List CheckResult :=
  ALL_CHECKS.map (fun c => c.run env)

/-- The tallying loop of `run_all_checks` (main.py lines 94-108): PASS
increments `passed`, WARN increments `warnings`, and the `else` branch
increments `failed` for every other status. Written as structural
recursion; the source's in-order increments commute. -/
def tallyCounts : List CheckResult → Nat × Nat × Nat
  | [] => (0, 0, 0)
  | r :: rest =>
    let acc := tallyCounts rest
    if r.status == CheckStatus.PASS then (acc.1 + 1, acc.2.1, acc.2.2)
    else if r.status == CheckStatus.WARN then (acc.1, acc.2.1 + 1, acc.2.2)
    else (acc.1, acc.2.1, acc.2.2 + 1)

/-- The summary counters of the JSON branch of `doctor` (main.py lines
179-183): one explicit filter per status. -/
def jsonSummary (results : List CheckResult) : Nat × Nat × Nat :=
  ((results.filter (fun r => r.status == CheckStatus.PASS)).length,
   (results.filter (fun r => r.status == CheckStatus.WARN)).length,
   (results.filter (fun r => r.status == CheckStatus.FAIL)).length)

/-- The probe loop of `run_all_checks` as it stands in the source (lines
84-91) when a probe's `run` may raise: `result = check.run()` has no
try/except around it, so an `Except.error` (an uncaught Python exception)
propagates out of the loop and the remaining probes never run. The list
carries each probe's outcome in registry order. -/
def run_loop : List (Except String CheckResult) → Except String (List CheckResult)
  | [] => Except.ok []
  | o :: rest =>
    match o with
    | Except.error e => Except.error e
    | Except.ok r =>
      match run_loop rest with
      | Except.error e => Except.error e
      | Except.ok rs => Except.ok (r :: rs)

/-- The lookup of the fix pass (main.py lines 120-123): the first registered
class whose `name` equals the result's name. -/
def lookup_by_name (n : String) : Option CheckKind :=
  ALL_CHECKS.find? (fun c => c.name == n)

/-- A probe-instance event: `run` or `fix` called on the instance with the
given identity, which is of the given kind. Instance identities number the
instantiations in program order. -/
inductive Event where
  | evRun (id : Nat) (kind : CheckKind)
  | evFix (id : Nat) (kind : CheckKind)
deriving DecidableEq

/-- The instance events of the probe loop (main.py lines 84-91): one fresh
instance per registered class, `run` called once on each. -/
def phase1Trace : List Event :=
  ALL_CHECKS.enum.map (fun p => Event.evRun p.1 p.2)

/-- The instance events of the fix loop (main.py lines 118-131): for each
fixable result with `can_auto_fix`, when its class is found, a fresh
instance is created, `run` on it, then `fix` on it; `i` numbers the next
fresh instance. -/
def fixPassTrace : List CheckResult → Nat → List Event
  | [], _ => []
  | r :: rest, i =>
    if r.can_auto_fix then
      match lookup_by_name r.name with
      | some k => Event.evRun i k :: Event.evFix i k :: fixPassTrace rest (i + 1)
      | none => fixPassTrace rest i
    else fixPassTrace rest i

/-- The results the fix pass iterates over (main.py line 112):
`not passed or is_warning`. -/
def fixableResults (results : List CheckResult) : List CheckResult :=
  results.filter (fun r => !r.passed || r.is_warning)

/-- The instance events of one `run_all_checks` call (main.py lines 71-138):
the probe loop, then, when fixing was requested and some result is fixable,
the fix loop with fresh instance identities. -/
def runAllChecksTrace (fixFlag : Bool) (env : Env) : List Event :=
  phase1Trace ++
    (if fixFlag then
       (let fixable := fixableResults (allResults env)
        if !fixable.isEmpty then fixPassTrace fixable ALL_CHECKS.length else [])
     else [])

/-- The value `run_all_checks` returns (main.py line 138): the ordered
results and the three counts. -/
def run_all_checks (env : Env) : List CheckResult × Nat × Nat × Nat :=
  let results := allResults env
  let counts := tallyCounts results
  (results, counts.1, counts.2.1, counts.2.2)

/-- Modelled from the spec: the package root module (holding `__version__`)
is not among the source files; the concrete version string is immaterial to
every claim. -/
def package_version : String := "0.1.0"

/-- What the `doctor` command renders. -/
inductive DoctorOutput where
  /-- The JSON document of the quiet branch: version, the serialized
  results, and the three summary counts. -/
  | jsonOut (version : String) (checks : List (List (String × JsonVal)))
      (passed warnings failed : Nat)
  /-- The rich-output branch: the printed results and the printed summary
  counts. -/
  | richOut (results : List CheckResult) (passed warnings failed : Nat)

/-- The `doctor` command (main.py lines 141-201): output, process exit code,
and the probe-instance events it causes. With `--json` each registered
probe is instantiated and run once and no fix pass exists (the `fix` flag is
never consulted); otherwise it is `run_all_checks` followed by the summary.
The exit code is 1 exactly when the failed count is positive. -/
def doctor (fixFlag _verbose json_output : Bool) (env : Env) :
    DoctorOutput × Nat × List Event :=
  if json_output then
    let results := allResults env
    let summary := jsonSummary results
    (DoctorOutput.jsonOut package_version (results.map CheckResult.to_dict)
       summary.1 summary.2.1 summary.2.2,
     if summary.2.2 > 0 then 1 else 0,
     ALL_CHECKS.enum.map (fun p => Event.evRun p.1 p.2))
  else
    let r := run_all_checks env
    (DoctorOutput.richOut r.1 r.2.1 r.2.2.1 r.2.2.2,
     if r.2.2.2 > 0 then 1 else 0,
     runAllChecksTrace fixFlag env)

/-- The root `callback` (main.py lines 31-68) with no subcommand and the
version flag unset: it forwards the flags to `doctor`. -/
def callback_no_subcommand (fixFlag verbose json_output : Bool) (env : Env) :
    DoctorOutput × Nat × List Event :=
  doctor fixFlag verbose json_output env

/-! ## Single-check lookup and the `check` command (main.py lines 204-288) -/

/-- The alias table `name_map` (main.py lines 232-246). -/
def name_map : List (String × String) :=
  [("nodejs", "Node.js"),
   ("node", "Node.js"),
   ("openclaw", "OpenClaw"),
   ("claw", "OpenClaw"),
   ("docker", "Docker"),
   ("system", "System"),
   ("config", "Config"),
   ("configuration", "Config"),
   ("api_keys", "API Keys"),
   ("apikeys", "API Keys"),
   ("keys", "API Keys"),
   ("network", "Network"),
   ("net", "Network")]

/-- The name normalization of `check` (main.py line 229):
`name.lower().replace("-", "_").replace(" ", "_")`. -/
def normalize_name (s : String) : String :=
  pyReplace (pyReplace (pyLower s) "-" "_") " " "_"

/-- The class lookup of `check` (main.py lines 229-253): resolve the
normalized name through the alias table, then take the first registered
class whose `name` equals the alias target or whose lowercased `name`
equals the normalized input. -/
def find_check_class (name : String) : Option CheckKind :=
  let name_lower := normalize_name name
  let target := name_map.lookup name_lower
  ALL_CHECKS.find? (fun cls => target == some cls.name || pyLower cls.name == name_lower)

/-- The list printed for an unknown name (main.py lines 258-259):
lowercased name with spaces replaced, and the description. -/
def availableChecksList : List (String × String) :=
  ALL_CHECKS.map (fun cls => (pyReplace (pyLower cls.name) " " "_", cls.description))

/-- What the `check` command produces. -/
inductive CheckCmdOutcome where
  /-- Unknown name: the error display with the valid names. -/
  | notFound (available : List (String × String))
  /-- The named probe was run, giving this result. -/
  | ran (kind : CheckKind) (result : CheckResult)
deriving DecidableEq

/-- The `check` command (main.py lines 204-288): outcome, process exit code,
and the probe-instance events it causes. An unknown name exits 1 with the
available-checks listing and runs no probe; otherwise one instance is
created and run, then — in fix mode, on a non-passed or warning result with
`can_auto_fix` — `fix` is called on that same instance. The exit code is 1
exactly when the result status is FAIL. -/
def check_command (name : String) (fixFlag : Bool) (env : Env) :
    CheckCmdOutcome × Nat × List Event :=
  match find_check_class name with
  | none => (CheckCmdOutcome.notFound availableChecksList, 1, [])
  | some kind =>
    let result := kind.run env
    let events := Event.evRun 0 kind ::
      (if fixFlag && (!result.passed || result.is_warning) && result.can_auto_fix then
         [Event.evFix 0 kind]
       else [])
    (CheckCmdOutcome.ran kind result,
     if result.status == CheckStatus.FAIL then 1 else 0,
     events)

/-! ## Helper lemmas -/

/-- Every code path of `NodeJSCheck.run` names the probe and never reports
SKIP. -/
lemma nodejs_run_fields (env : NodeEnv) :
    (NodeJSCheck.run env).name = NodeJSCheck.name ∧
    (NodeJSCheck.run env).status ≠ CheckStatus.SKIP := by
  obtain ⟨p, v, plat⟩ := env
  simp only [NodeJSCheck.run]
  repeat' split
  all_goals exact ⟨rfl, by simp⟩

/-- Every code path of `OpenClawCheck.run` names the probe and never
reports SKIP. -/
lemma openclaw_run_fields (env : OpenClawEnv) :
    (OpenClawCheck.run env).name = OpenClawCheck.name ∧
    (OpenClawCheck.run env).status ≠ CheckStatus.SKIP := by
  obtain ⟨p, v, h, plat, f⟩ := env
  simp only [OpenClawCheck.run]
  repeat' split
  all_goals exact ⟨rfl, by simp⟩

/-- Every code path of `DockerCheck.run` names the probe and never reports
SKIP. -/
lemma docker_run_fields (env : DockerEnv) :
    (DockerCheck.run env).name = DockerCheck.name ∧
    (DockerCheck.run env).status ≠ CheckStatus.SKIP := by
  obtain ⟨p, v, i, c, plat, f⟩ := env
  simp only [DockerCheck.run]
  repeat' split
  all_goals exact ⟨rfl, by simp⟩

/-- Every code path of `SystemCheck.run` names the probe and never reports
SKIP. -/
lemma system_run_fields (env : SystemEnv) :
    (SystemCheck.run env).name = SystemCheck.name ∧
    (SystemCheck.run env).status ≠ CheckStatus.SKIP := by
  obtain ⟨m, d, cp, cl, plat⟩ := env
  simp only [SystemCheck.run]
  repeat' split
  all_goals exact ⟨rfl, by simp⟩

/-- Every code path of `ConfigCheck.run` names the probe and never reports
SKIP. -/
lemma config_run_fields (env : ConfigEnv) :
    (ConfigCheck.run env).name = ConfigCheck.name ∧
    (ConfigCheck.run env).status ≠ CheckStatus.SKIP := by
  obtain ⟨p, o, f⟩ := env
  simp only [ConfigCheck.run]
  repeat' split
  all_goals exact ⟨rfl, by simp⟩

/-- Every code path of `APIKeysCheck.run` names the probe and never reports
SKIP. -/
lemma api_keys_run_fields (env : APIKeysEnv) :
    (APIKeysCheck.run env).name = APIKeysCheck.name ∧
    (APIKeysCheck.run env).status ≠ CheckStatus.SKIP := by
  obtain ⟨ev, ef, cd⟩ := env
  simp only [APIKeysCheck.run]
  repeat' split
  all_goals exact ⟨rfl, by simp⟩

/-- Every code path of `NetworkCheck.run` names the probe and never reports
SKIP. -/
lemma network_run_fields (env : NetworkEnv) :
    (NetworkCheck.run env).name = NetworkCheck.name ∧
    (NetworkCheck.run env).status ≠ CheckStatus.SKIP := by
  obtain ⟨o⟩ := env
  simp only [NetworkCheck.run]
  repeat' split
  all_goals exact ⟨rfl, by simp⟩

/-- Every registered probe's `run`, on every environment, names its own
class and never reports SKIP. -/
lemma kind_run_fields (k : CheckKind) (env : Env) :
    (k.run env).name = k.name ∧ (k.run env).status ≠ CheckStatus.SKIP := by
  cases k with
  | nodejs => exact nodejs_run_fields env.node
  | openclaw => exact openclaw_run_fields env.openclaw
  | docker => exact docker_run_fields env.docker
  | system => exact system_run_fields env.system
  | config => exact config_run_fields env.config
  | api_keys => exact api_keys_run_fields env.api_keys
  | network => exact network_run_fields env.network

/-- No result of a batch pass carries status SKIP. -/
lemma allResults_no_skip (env : Env) :
    ∀ r ∈ allResults env, r.status ≠ CheckStatus.SKIP := by
  intro r hr
  simp only [allResults, List.mem_map] at hr
  obtain ⟨k, _, rfl⟩ := hr
  exact (kind_run_fields k env).2

/-- On a SKIP-free list the `else`-branch tally agrees with the per-status
filters. -/
lemma tallyCounts_eq_filters (l : List CheckResult)
    (h : ∀ r ∈ l, r.status ≠ CheckStatus.SKIP) :
    tallyCounts l =
      ((l.filter (fun r => r.status == CheckStatus.PASS)).length,
       (l.filter (fun r => r.status == CheckStatus.WARN)).length,
       (l.filter (fun r => r.status == CheckStatus.FAIL)).length) := by
  induction l with
  | nil => rfl
  | cons r rest ih =>
    have hr : r.status ≠ CheckStatus.SKIP := h r (List.mem_cons_self r rest)
    have hrest := ih (fun x hx => h x (List.mem_cons_of_mem r hx))
    cases hs : r.status <;>
      simp [tallyCounts, List.filter_cons, hs, hrest]
    · exact absurd hs hr

/-- A filter is nonempty exactly when some element satisfies the
predicate. -/
lemma filter_length_pos_iff_any (l : List CheckResult) (p : CheckResult → Bool) :
    0 < (l.filter p).length ↔ l.any p = true := by
  rw [List.length_pos, Ne, List.filter_eq_nil_iff, List.any_eq_true]
  push_neg
  constructor
  · rintro ⟨x, hx, hp⟩
    exact ⟨x, hx, by simpa using hp⟩
  · rintro ⟨x, hx, hp⟩
    exact ⟨x, hx, by simpa using hp⟩

/-- A concrete healthy environment, except that Node.js is missing (so the
batch fix pass has one auto-fixable result to act on). -/
def sampleEnv : Env :=
  { node := { node_path := none, node_version := none, platform := Platform.linux },
    openclaw :=
      { openclaw_path := some "/usr/local/bin/openclaw",
        version_stdout := some "openclaw v1.2.3",
        home_dir := some "/home/user/.openclaw",
        platform := Platform.linux,
        fix_install_ok := false },
    docker :=
      { docker_path := some "/usr/bin/docker",
        version_output := some "24.0.7",
        info_ok := true,
        compose_version := some "v2.23.0",
        platform := Platform.linux,
        fix_attempt_ok := false },
    system :=
      { mem_total := 8589934592,
        disk_free := 107374182400,
        cpu_physical := some 4,
        cpu_logical := some 8,
        platform := Platform.linux },
    config :=
      { config_path := some "/home/user/.openclaw/config.yaml",
        parse_outcome := ParseOutcome.parsed (some [("provider", PyVal.vStr "anthropic")]),
        fix_create_ok := false },
    api_keys :=
      { env_vars := [("GOOGLE_GENERATIVE_AI_API_KEY", "some-key")],
        env_files := [],
        config_docs := [] },
    network := { outcome := fun _ => NetOutcome.responded } }

/-- Traces in which every `fix` on an instance directly follows a `run` on
that same instance: the empty trace, a lone `run`, or a `run` directly
followed by `fix` on the same instance. -/
inductive RunThenFixShaped : List Event → Prop where
  | nil : RunThenFixShaped []
  | run_only (i : Nat) (k : CheckKind) (t : List Event) :
      RunThenFixShaped t → RunThenFixShaped (Event.evRun i k :: t)
  | run_then_fix (i : Nat) (k : CheckKind) (t : List Event) :
      RunThenFixShaped t → RunThenFixShaped (Event.evRun i k :: Event.evFix i k :: t)

/-- The sequencing contract: every `fix` event is immediately preceded by a
`run` event on the same instance (same identity, same kind). -/
def fix_immediately_after_run (t : List Event) : Prop :=
  ∀ p i k, t.get? p = some (Event.evFix i k) →
    ∃ q, p = q + 1 ∧ t.get? q = some (Event.evRun i k)

/-- A trace of the run/fix shape satisfies the sequencing contract. -/
lemma RunThenFixShaped.implies_contract {t : List Event}
    (h : RunThenFixShaped t) : fix_immediately_after_run t := by
  induction h with
  | nil =>
    intro p i k hp
    simp at hp
  | run_only j k2 t _ ih =>
    intro p i k hp
    cases p with
    | zero => simp at hp
    | succ q =>
      obtain ⟨q', hq', hget⟩ := ih q i k (by simpa using hp)
      exact ⟨q' + 1, by omega, by simpa using hget⟩
  | run_then_fix j k2 t _ ih =>
    intro p i k hp
    cases p with
    | zero => simp at hp
    | succ q =>
      cases q with
      | zero =>
        simp at hp
        exact ⟨0, rfl, by simp [hp.1, hp.2]⟩
      | succ q2 =>
        obtain ⟨q', hq', hget⟩ := ih q2 i k (by simpa using hp)
        exact ⟨q' + 2, by omega, by simpa using hget⟩

/-- The fix loop produces run-then-fix blocks, whatever the results and the
starting instance identity. -/
lemma fixPassTrace_shaped (rs : List CheckResult) (i : Nat) :
    RunThenFixShaped (fixPassTrace rs i) := by
  induction rs generalizing i with
  | nil => exact RunThenFixShaped.nil
  | cons r rest ih =>
    unfold fixPassTrace
    split
    · split
      · exact RunThenFixShaped.run_then_fix _ _ _ (ih _)
      · exact ih _
    · exact ih _

/-- Prefixing the seven run-only events of the probe loop preserves the
shape. -/
lemma phase1_append_shaped (t : List Event) (h : RunThenFixShaped t) :
    RunThenFixShaped (phase1Trace ++ t) := by
  have e : phase1Trace ++ t =
      Event.evRun 0 CheckKind.nodejs :: Event.evRun 1 CheckKind.openclaw ::
      Event.evRun 2 CheckKind.docker :: Event.evRun 3 CheckKind.system ::
      Event.evRun 4 CheckKind.config :: Event.evRun 5 CheckKind.api_keys ::
      Event.evRun 6 CheckKind.network :: t := rfl
  rw [e]
  exact .run_only _ _ _ (.run_only _ _ _ (.run_only _ _ _ (.run_only _ _ _
    (.run_only _ _ _ (.run_only _ _ _ (.run_only _ _ _ h))))))

/-- Every batch trace has the run-then-fix shape. -/
lemma runAllChecksTrace_shaped (fixFlag : Bool) (env : Env) :
    RunThenFixShaped (runAllChecksTrace fixFlag env) := by
  unfold runAllChecksTrace
  apply phase1_append_shaped
  split
  · dsimp only
    split
    · exact fixPassTrace_shaped _ _
    · exact RunThenFixShaped.nil
  · exact RunThenFixShaped.nil

/-- Every single-check trace has the run-then-fix shape. -/
lemma check_command_trace_shaped (name : String) (fixFlag : Bool) (env : Env) :
    RunThenFixShaped (check_command name fixFlag env).2.2 := by
  unfold check_command
  split
  · exact RunThenFixShaped.nil
  · simp only
    split
    · exact RunThenFixShaped.run_then_fix _ _ _ RunThenFixShaped.nil
    · exact RunThenFixShaped.run_only _ _ _ RunThenFixShaped.nil

/-- A concrete environment for the Node.js probe in which node is not on
the PATH. -/
def envNodeMissing : NodeEnv :=
  { node_path := none, node_version := none, platform := Platform.linux }

/-- A concrete environment for the system probe: 8GB RAM, 100GB free disk,
one CPU core — so only the CPU warning fires. -/
def envCpuOnlyWarn : SystemEnv :=
  { mem_total := 8589934592,
    disk_free := 107374182400,
    cpu_physical := some 1,
    cpu_logical := some 1,
    platform := Platform.linux }

/-! ## Claim theorems -/

/-- C1: in a batch orchestration pass the three summary counts tally only
PASS, WARN and FAIL results respectively: on every result list a pass
produces, the `run_all_checks` tally equals the per-status filter counts,
the JSON-branch summary agrees with it, and no produced result has status
SKIP (so SKIP is counted in none of the three). -/
theorem c1_summary_counts_tally_by_status (env : Env) :
    tallyCounts (allResults env) =
      (((allResults env).filter (fun r => r.status == CheckStatus.PASS)).length,
       ((allResults env).filter (fun r => r.status == CheckStatus.WARN)).length,
       ((allResults env).filter (fun r => r.status == CheckStatus.FAIL)).length) ∧
    jsonSummary (allResults env) = tallyCounts (allResults env) ∧
    (allResults env).all (fun r => !(r.status == CheckStatus.SKIP)) = true := by
  have hns := allResults_no_skip env
  have ht := tallyCounts_eq_filters (allResults env) hns
  refine ⟨ht, ?_, ?_⟩
  · rw [ht]; rfl
  · rw [List.all_eq_true]
    intro r hr
    simpa using hns r hr

/-- C2 counterexample: the claim says no exception from a probe's `run`
propagates out of the orchestration loop; in the source the loop has no
try/except, so an erroring outcome makes the whole loop error out. The
claim, formalized as "every outcome list yields an ok result list", is
false at the one-element list with an error. -/
theorem c2_counterexample :
    ¬ (∀ outcomes : List (Except String CheckResult),
        ∃ rs : List CheckResult, run_loop outcomes = Except.ok rs) := by
  intro h
  obtain ⟨rs, hrs⟩ := h [Except.error "boom"]
  simp [run_loop] at hrs

/-- C2 amended: when every probe's `run` returns normally the loop returns
all results in order; but the first probe whose `run` raises makes the loop
propagate that exception, discarding the earlier results, synthesizing no
Fail result and never running the remaining probes. -/
theorem c2_amended_exception_aborts_loop :
    (∀ rs : List CheckResult, run_loop (rs.map Except.ok) = Except.ok rs) ∧
    (∀ (pre : List CheckResult) (e : String)
       (post : List (Except String CheckResult)),
      run_loop (pre.map Except.ok ++ Except.error e :: post) = Except.error e) := by
  constructor
  · intro rs
    induction rs with
    | nil => rfl
    | cons r rest ih => simp [run_loop, List.map, ih]
  · intro pre e post
    induction pre with
    | nil => rfl
    | cons r rest ih => simp [run_loop, List.map, List.cons_append, ih]

/-- C3: the batch failure signal (exit code 1) holds exactly when some
result of the pass has status FAIL, in both the JSON branch and the rich
branch of `doctor`. -/
theorem c3_exit_code_iff_some_fail (env : Env) (fixFlag verbose json_output : Bool) :
    (doctor fixFlag verbose json_output env).2.1 =
      (if (allResults env).any (fun r => r.status == CheckStatus.FAIL) = true
       then 1 else 0) := by
  have hns := allResults_no_skip env
  have ht := tallyCounts_eq_filters (allResults env) hns
  have hpos := filter_length_pos_iff_any (allResults env)
    (fun r => r.status == CheckStatus.FAIL)
  cases json_output with
  | true =>
    simp only [doctor, if_true, jsonSummary]
    exact if_congr hpos rfl rfl
  | false =>
    simp only [doctor, if_false, run_all_checks, ht]
    exact if_congr hpos rfl rfl

/-- C4: the claim is that `can_auto_fix = true` is reported only when the
probe's `fix` actually resolves the condition rather than displaying
instructions. The Node.js probe violates it: with node absent its `run`
reports FAIL with `can_auto_fix = true`, while its `fix` on every
environment only prints install guidance and returns `False`. -/
theorem c4_nodejs_autofix_flag_vs_informational_fix :
    (NodeJSCheck.run envNodeMissing).status = CheckStatus.FAIL ∧
    (NodeJSCheck.run envNodeMissing).can_auto_fix = true ∧
    (∀ env : NodeEnv, NodeJSCheck.fix env = false) :=
  ⟨rfl, rfl, fun _ => rfl⟩

/-- C5: the claim is that every WARN/FAIL result with `can_auto_fix = false`
carries a non-empty `fix_suggestions`. The system probe violates it: on a
host with 8GB RAM, 100GB free disk and a single CPU core its `run` returns
WARN with `can_auto_fix = false` and an empty suggestion list. -/
theorem c5_system_cpu_warn_has_empty_suggestions :
    (SystemCheck.run envCpuOnlyWarn).status = CheckStatus.WARN ∧
    (SystemCheck.run envCpuOnlyWarn).can_auto_fix = false ∧
    (SystemCheck.run envCpuOnlyWarn).fix_suggestions = [] := by
  refine ⟨?_, ?_, ?_⟩ <;>
  · simp only [SystemCheck.run, envCpuOnlyWarn, pyOrNat, SystemCheck.get_suggestions]
    norm_num [SystemCheck.MIN_RAM_GB, SystemCheck.RECOMMENDED_RAM_GB,
      SystemCheck.MIN_DISK_GB, SystemCheck.MIN_CPU_CORES]

/-- C6 counterexample: the claim says constructing a result with an empty
message is rejected; the dataclass validates nothing, so a result whose
message is the empty string is a perfectly constructible value. -/
theorem c6_counterexample :
    ¬ (∀ r : CheckResult, r.message ≠ "") := by
  intro h
  exact h { name := "Test", status := CheckStatus.PASS, message := "" } rfl

/-- C6 amended: construction validates nothing about the message content
(a result with an empty message is constructible; only the argument itself
is mandatory), while the optional fields do default to `details = none`,
`can_auto_fix = false` and `fix_suggestions = []`. -/
theorem c6_amended_defaults_no_validation :
    ({ name := "Test", status := CheckStatus.PASS, message := "OK" } : CheckResult).details
        = none ∧
    ({ name := "Test", status := CheckStatus.PASS, message := "OK" } : CheckResult).can_auto_fix
        = false ∧
    ({ name := "Test", status := CheckStatus.PASS, message := "OK" } : CheckResult).fix_suggestions
        = [] ∧
    ∃ r : CheckResult, r.message = "" :=
  ⟨rfl, rfl, rfl,
   ⟨{ name := "Test", status := CheckStatus.PASS, message := "" }, rfl⟩⟩

/-- C7: single-check lookup resolves every declared alias pair to the same
probe class, is case-insensitive (names equal up to ASCII case resolve
alike), and an unknown name yields the distinguishable not-found outcome
with the valid-name listing, exit code 1, and no probe instantiated or
run. -/
theorem c7_lookup_aliases_case_and_not_found :
    (find_check_class "node" = some CheckKind.nodejs ∧
     find_check_class "nodejs" = some CheckKind.nodejs ∧
     find_check_class "openclaw" = some CheckKind.openclaw ∧
     find_check_class "claw" = some CheckKind.openclaw ∧
     find_check_class "docker" = some CheckKind.docker ∧
     find_check_class "system" = some CheckKind.system ∧
     find_check_class "config" = some CheckKind.config ∧
     find_check_class "configuration" = some CheckKind.config ∧
     find_check_class "api_keys" = some CheckKind.api_keys ∧
     find_check_class "apikeys" = some CheckKind.api_keys ∧
     find_check_class "keys" = some CheckKind.api_keys ∧
     find_check_class "network" = some CheckKind.network ∧
     find_check_class "net" = some CheckKind.network) ∧
    (∀ s t : String, pyLower s = pyLower t →
      find_check_class s = find_check_class t) ∧
    (∀ (name : String) (fixFlag : Bool) (env : Env),
      find_check_class name = none →
        check_command name fixFlag env =
          (CheckCmdOutcome.notFound availableChecksList, 1, [])) := by
  refine ⟨⟨rfl, rfl, rfl, rfl, rfl, rfl, rfl, rfl, rfl, rfl, rfl, rfl, rfl⟩, ?_, ?_⟩
  · intro s t h
    simp only [find_check_class, normalize_name, h]
  · intro name fixFlag env h
    simp only [check_command, h]

/-- C7 witness: the theorem applied at the concrete unknown name "bogus"
and at the concrete case pair "NODE"/"node". -/
theorem c7_witness :
    check_command "bogus" false sampleEnv =
      (CheckCmdOutcome.notFound availableChecksList, 1, []) ∧
    find_check_class "NODE" = find_check_class "node" :=
  ⟨c7_lookup_aliases_case_and_not_found.2.2 "bogus" false sampleEnv rfl,
   c7_lookup_aliases_case_and_not_found.2.1 "NODE" "node" rfl⟩

/-- C8: in every fix pass, batch or single-check, a `fix` event on a probe
instance is immediately preceded by a `run` event on that same instance
(same identity and kind): `fix` is never invoked on an instance whose `run`
has not just been invoked. -/
theorem c8_fix_only_after_fresh_run :
    (∀ (env : Env) (fixFlag : Bool),
      fix_immediately_after_run (runAllChecksTrace fixFlag env)) ∧
    (∀ (name : String) (fixFlag : Bool) (env : Env),
      fix_immediately_after_run (check_command name fixFlag env).2.2) :=
  ⟨fun env f => (runAllChecksTrace_shaped f env).implies_contract,
   fun n f env => (check_command_trace_shaped n f env).implies_contract⟩

/-- C8 witness: in the concrete batch fix pass over `sampleEnv` the `fix`
at position 8 (on the fresh Node.js instance 7) is immediately preceded by
the `run` on that instance. -/
theorem c8_witness :
    ∃ q, 8 = q + 1 ∧ (runAllChecksTrace true sampleEnv).get? q =
      some (Event.evRun 7 CheckKind.nodejs) :=
  c8_fix_only_after_fresh_run.1 sampleEnv true 8 7 CheckKind.nodejs rfl

/-- C9: on every environment and every code path, a registered probe's
`run` returns a result whose `name` equals the class-level `name`
attribute, and the batch fix pass's lookup of that name therefore finds
exactly the producing class. -/
theorem c9_result_name_matches_class (env : Env) (k : CheckKind) :
    (k.run env).name = k.name ∧
    lookup_by_name (k.run env).name = some k := by
  obtain ⟨hname, -⟩ := kind_run_fields k env
  refine ⟨hname, ?_⟩
  rw [hname]
  cases k <;> rfl

/-- C10: with JSON output enabled the `doctor` entry point, whatever the
fix flag, produces exactly the serialized results and the summary counts,
its trace contains no `fix` event (no fix pass occurs), and each
registered probe is run exactly once. -/
theorem c10_json_mode_runs_once_no_fix (env : Env) (fixFlag verbose : Bool) :
    doctor fixFlag verbose true env =
      (DoctorOutput.jsonOut package_version ((allResults env).map CheckResult.to_dict)
         (jsonSummary (allResults env)).1 (jsonSummary (allResults env)).2.1
         (jsonSummary (allResults env)).2.2,
       if (jsonSummary (allResults env)).2.2 > 0 then 1 else 0,
       ALL_CHECKS.enum.map (fun p => Event.evRun p.1 p.2)) ∧
    ((doctor fixFlag verbose true env).2.2.all
      (fun e => match e with
                | Event.evRun _ _ => true
                | Event.evFix _ _ => false)) = true ∧
    (∀ k : CheckKind,
      ((doctor fixFlag verbose true env).2.2.filter
        (fun e => match e with
                  | Event.evRun _ k2 => k2 == k
                  | Event.evFix _ _ => false)).length = 1) := by
  refine ⟨rfl, rfl, ?_⟩
  intro k
  cases k <;> rfl
